import Mathlib

/-!
Shallow embedding of the Minimax video generation client of this repository:
`src/services/minimaxVideo.ts` (class `MinimaxVideoService`) and the CLI
downloader `download-video.js`.

Network I/O is modelled by passing the provider's responses in as values:
an `Except String _` models the outcome of one HTTP round-trip, where
`Except.error msg` stands for a thrown transport error whose `message` is
`msg` (axios network failures, HTTP error statuses, auth rejections alike),
and `Except.ok r` stands for a 2xx response with parsed JSON body `r`.
A polling run receives the outcome of its k-th status query from a
function `behavior : Nat → QueryOutcome`.

JavaScript truthiness on optional strings (`undefined` and `""` are falsy)
is modelled by `truthyStr`, and the JS `a || b` idiom on strings by
`orElseStr`.  `toLowerStr` models `String.prototype.toLowerCase` on the
ASCII status vocabulary actually exchanged with the provider.
-/

namespace MinimaxVideo

/-- Internal status union of the `VideoGenerationTask` interface
(minimaxVideo.ts, line 7): `'pending' | 'processing' | 'completed' | 'failed'`. -/
inductive Status where
  | pending
  | processing
  | completed
  | failed
  deriving DecidableEq, Repr

/-- The `VideoGenerationTask` interface (minimaxVideo.ts, lines 5-12). -/
structure VideoGenerationTask where
  task_id : String
  status : Status
  file_id : Option String
  video_url : Option String
  error : Option String
  deriving DecidableEq, Repr

/-- JS truthiness of an optional string: `undefined` and `""` are falsy,
every other string is truthy. -/
def truthyStr (o : Option String) : Bool :=
  match o with
  | some s => !(s == "")
  | none => false

/-- The JS `a || b` idiom on an optional string `a`: yields `b` when `a` is
`undefined` or the empty string (both falsy in JS), otherwise `a`. -/
def orElseStr (o : Option String) (d : String) : String :=
  match o with
  | some s => if s == "" then d else s
  | none => d

/-- Models `String.prototype.toLowerCase` (ASCII range, which covers the
provider's status vocabulary), mapping each character through `Char.toLower`. -/
def toLowerStr (s : String) : String :=
  String.mk (s.data.map Char.toLower)

/-- The `base_resp` envelope of provider responses:
`{ status_code, status_msg }`. -/
structure BaseResp where
  status_code : Int
  status_msg : Option String
  deriving DecidableEq, Repr

/-- The `file` object of a `GET /files/retrieve` response body
(only the `download_url` field is read by the code). -/
structure FileObj where
  download_url : Option String
  deriving DecidableEq, Repr

/-- Parsed body of a `GET /files/retrieve` response: `{ file?: { download_url? } }`
(the code reads `fileResponse.data.file?.download_url`). -/
structure RetrieveResponse where
  file : Option FileObj
  deriving DecidableEq, Repr

/-- Parsed body of a `GET /query/video_generation` response, with the fields
`checkTaskStatus` reads: `base_resp`, `status`, `file_id`, `error`. -/
structure QueryResponse where
  base_resp : Option BaseResp
  status : Option String
  file_id : Option String
  error : Option String
  deriving DecidableEq, Repr

/-- The provider-side outcome of one status check: the outcome of the status
query itself, and the outcome of the `files/retrieve` round-trip that
`checkTaskStatus` performs when the status response carries a truthy
`file_id` (unused otherwise). -/
structure QueryOutcome where
  query : Except String QueryResponse
  retrieve : Except String RetrieveResponse

/-- Status-string normalization of `checkTaskStatus` (minimaxVideo.ts,
lines 137-139): lowercase the provider string and map `"success"` to
`completed`, `"processing"` to `processing`, `"failed"` to `failed`, and
anything else — including a missing status field — to `pending`. -/
def parseStatus (s : Option String) : Status :=
  match s with
  | none => Status.pending
  | some str =>
    if toLowerStr str = "success" then Status.completed
    else if toLowerStr str = "processing" then Status.processing
    else if toLowerStr str = "failed" then Status.failed
    else Status.pending

/-- `MinimaxVideoService.checkTaskStatus` (minimaxVideo.ts, lines 101-156).
The whole body is wrapped in a `try`/`catch` that converts any thrown error
(transport failure of the status query, or the error thrown when
`base_resp.status_code !== 0`) into a returned task value with status
`'failed'` and the error's message; the inner `files/retrieve` call has its
own `catch` that only logs, leaving `video_url` undefined. -/
def checkTaskStatus (taskId : String) (env : QueryOutcome) : VideoGenerationTask :=
  match env.query with
  | Except.error msg =>
    { task_id := taskId, status := Status.failed,
      file_id := none, video_url := none, error := some msg }
  | Except.ok result =>
    if result.base_resp.map BaseResp.status_code ≠ some 0 then
      { task_id := taskId, status := Status.failed,
        file_id := none, video_url := none,
        error := some (orElseStr (result.base_resp.bind BaseResp.status_msg)
          ("Status check failed")) }
    else
      let videoUrl : Option String :=
        if truthyStr result.file_id then
          match env.retrieve with
          | Except.ok fr => fr.file.bind FileObj.download_url
          | Except.error _ => none
        else none
      { task_id := taskId, status := parseStatus result.status,
        file_id := result.file_id, video_url := videoUrl,
        error := result.error }

/-- The axios error object as read by `createVideoTask`'s `catch` block:
`error.response?.status`, `error.response?.data?.message`, `error.message`. -/
structure AxiosError where
  status : Option Nat
  data_message : Option String
  message : String
  deriving DecidableEq, Repr

/-- Parsed body of a `POST /video_generation` response, with the fields
`createVideoTask` reads (`task_id`, fallback `id`); `raw` stands for
`JSON.stringify(result)` of the full body. -/
structure CreateResponse where
  task_id : Option String
  id : Option String
  raw : String
  deriving DecidableEq, Repr

/-- The prompt actually sent in the `POST /video_generation` payload
(minimaxVideo.ts, line 43). -/
def videoPrompt (prompt : String) (maxDuration : Nat) : String :=
  ("Create a short ") ++ toString maxDuration ++
    ("-second educational video explaining: ") ++ prompt ++
    (". Make it clear, engaging, and suitable for students.")

/-- `MinimaxVideoService.createVideoTask` (minimaxVideo.ts, lines 34-95).
The provider is modelled as a function from the submitted prompt to the
round-trip outcome.  On a 2xx response the code returns `result.task_id` if
truthy, else `result.id` if truthy, else throws "No task_id received…" —
and that throw happens inside the same `try`, so it is caught by the
function's own `catch` (no `response` field on it) and re-thrown with the
"Failed to create video task: " prefix.  A transport error is mapped by
HTTP status (404/401/403) to a specific message, else to the generic one. -/
def createVideoTask (prompt : String) (maxDuration : Nat)
    (provider : String → Except AxiosError CreateResponse) : Except String String :=
  match provider (videoPrompt prompt maxDuration) with
  | Except.ok result =>
    if truthyStr result.task_id then Except.ok (result.task_id.getD (""))
    else if truthyStr result.id then Except.ok (result.id.getD (""))
    else Except.error (("Failed to create video task: ") ++
      (("No task_id received from Minimax API. Response: ") ++ result.raw))
  | Except.error e =>
    if e.status = some 404 then
      Except.error ("Video generation endpoint not found. The API endpoint might be incorrect or video generation may not be available for your account.")
    else if e.status = some 401 then
      Except.error ("Authentication failed. Please check your VITE_MINIMAX_API_KEY.")
    else if e.status = some 403 then
      Except.error ("Access forbidden. Video generation may not be enabled for your API key.")
    else
      Except.error (("Failed to create video task: ") ++ orElseStr e.data_message e.message)

/-- Events of one polling run, in order: `query k` is the k-th status check
(0-based), `sleep ms` is the `setTimeout` pause between two checks. -/
inductive PollEvent where
  | query (k : Nat)
  | sleep (ms : Nat)
  deriving DecidableEq, Repr

/-- The message of the timeout error thrown when the poll deadline elapses
(minimaxVideo.ts, line 188). -/
def timeoutMessage : String :=
  "Video generation timeout - exceeded maximum wait time"

/-- One-loop body of `waitForVideoCompletion` (minimaxVideo.ts, lines
169-188), as a fuel-indexed structural recursion.  `k` counts completed
iterations, so with instantaneous network calls the elapsed time at the
top of iteration `k` is `k * interval` and the `while` guard
`Date.now() - startTime < maxWaitTime` reads `k * interval < maxWait`.
Iteration order is exactly the source's: status check, then return on
`completed` with a truthy `video_url`, then throw on `failed` (with
`status.error || 'Video generation failed'`), else sleep one interval and
loop; when the guard fails the timeout error is thrown.  The fuel only
bounds the recursion depth; `pollLoop` supplies enough fuel that it never
runs out while the guard can still hold. -/
def pollAux (behavior : Nat → QueryOutcome) (taskId : String)
    (interval maxWait : Nat) :
    Nat → Nat → Except String VideoGenerationTask × List PollEvent
  | 0, _ => (Except.error timeoutMessage, [])
  | fuel + 1, k =>
    if k * interval < maxWait then
      let status := checkTaskStatus taskId (behavior k)
      if status.status = Status.completed ∧ truthyStr status.video_url = true then
        (Except.ok status, [PollEvent.query k])
      else if status.status = Status.failed then
        (Except.error (orElseStr status.error ("Video generation failed")),
          [PollEvent.query k])
      else
        let rest := pollAux behavior taskId interval maxWait fuel (k + 1)
        (rest.1, PollEvent.query k :: PollEvent.sleep interval :: rest.2)
    else (Except.error timeoutMessage, [])

/-- A polling run with the configured interval, starting at iteration 0.
Fuel `maxWait + 1` suffices because every iteration requires
`k * interval < maxWait`, so with a positive interval at most
`maxWait` iterations can pass the guard. -/
def pollLoop (behavior : Nat → QueryOutcome) (taskId : String)
    (interval maxWait : Nat) : Except String VideoGenerationTask × List PollEvent :=
  pollAux behavior taskId interval maxWait (maxWait + 1) 0

/-- `MinimaxVideoService.waitForVideoCompletion` (minimaxVideo.ts, lines
161-189): the poll interval is the constant 3000 ms, the deadline is the
`maxWaitTime` argument (300000 ms at its call sites, which use the default). -/
def waitForVideoCompletion (behavior : Nat → QueryOutcome) (taskId : String)
    (maxWaitTime : Nat) : Except String VideoGenerationTask × List PollEvent :=
  pollLoop behavior taskId 3000 maxWaitTime

/-- Number of status queries recorded in a poll trace. -/
def queryCount (tr : List PollEvent) : Nat :=
  tr.countP (fun e => match e with | PollEvent.query _ => true | _ => false)

/-- Trace fragment of `j` consecutive non-terminal iterations starting at
iteration `k`: each is one status query followed by one full-interval sleep. -/
def procTrace (interval : Nat) : Nat → Nat → List PollEvent
  | _, 0 => []
  | k, j + 1 => PollEvent.query k :: PollEvent.sleep interval ::
      procTrace interval (k + 1) j

/-- A status-query outcome reporting `"Processing"` (success envelope,
no file yet). -/
def procOutcome : QueryOutcome :=
  { query := Except.ok
      { base_resp := some { status_code := 0, status_msg := none },
        status := some ("Processing"), file_id := none, error := none },
    retrieve := Except.error ("unused") }

/-- A status-query outcome reporting `"Success"` with file id `fid`, whose
`files/retrieve` round-trip yields `download_url = url`. -/
def successOutcome (fid url : String) : QueryOutcome :=
  { query := Except.ok
      { base_resp := some { status_code := 0, status_msg := none },
        status := some ("Success"), file_id := some fid, error := none },
    retrieve := Except.ok { file := some { download_url := some url } } }

/-- A provider that answers `"Processing"` to the first `n` status queries
and `"Success"` (file `fid`, resolving to `url`) from the n-th on. -/
def procThenSuccess (n : Nat) (fid url : String) : Nat → QueryOutcome :=
  fun k => if k < n then procOutcome else successOutcome fid url

/-- A provider whose status never leaves `"Processing"`. -/
def alwaysProcessing : Nat → QueryOutcome :=
  fun _ => procOutcome

/-- The task value `checkTaskStatus` builds from `successOutcome fid url`. -/
def successTask (taskId fid url : String) : VideoGenerationTask :=
  { task_id := taskId, status := Status.completed,
    file_id := some fid, video_url := some url, error := none }

/-- The task value `checkTaskStatus` builds from `procOutcome`. -/
def processingTask (taskId : String) : VideoGenerationTask :=
  { task_id := taskId, status := Status.processing,
    file_id := none, video_url := none, error := none }

/-- A status-query outcome whose first round-trip fails at the transport
level with message `msg` (network failure, HTTP error status, auth
rejection — axios throws in all these cases). -/
def transportFailEnv (msg : String) : QueryOutcome :=
  { query := Except.error msg, retrieve := Except.error ("unused") }

/-- A status-query outcome where the provider itself reports a terminal
`"Failed"` status with error message `msg` in a success envelope. -/
def providerFailedEnv (msg : String) : QueryOutcome :=
  { query := Except.ok
      { base_resp := some { status_code := 0, status_msg := none },
        status := some ("Failed"), file_id := none, error := some msg },
    retrieve := Except.error ("unused") }

/-- A task value on which the poll loop neither returns nor throws: it is
not (`completed` with a truthy `video_url`) and not `failed`. -/
def nonTerminal (t : VideoGenerationTask) : Prop :=
  ¬(t.status = Status.completed ∧ truthyStr t.video_url = true) ∧
    t.status ≠ Status.failed

lemma truthyStr_some_of_ne (s : String) (h : s ≠ "") :
    truthyStr (some s) = true := by
  simp [truthyStr, h]

lemma checkTaskStatus_procOutcome (tid : String) :
    checkTaskStatus tid procOutcome = processingTask tid := rfl

lemma checkTaskStatus_successOutcome (tid fid url : String) (hfid : fid ≠ "") :
    checkTaskStatus tid (successOutcome fid url) = successTask tid fid url := by
  unfold checkTaskStatus successOutcome
  simp [truthyStr_some_of_ne fid hfid, successTask, parseStatus, toLowerStr,
    Option.bind]

lemma nonTerminal_processingTask (tid : String) :
    nonTerminal (processingTask tid) := by
  constructor
  · intro h
    simp [processingTask] at h
  · simp [processingTask]

lemma queryCount_procTrace (interval : Nat) :
    ∀ j k, queryCount (procTrace interval k j) = j := by
  intro j
  induction j with
  | zero => intro k; rfl
  | succ j ih =>
    intro k
    simp [procTrace, queryCount, List.countP_cons] at ih ⊢
    exact ih (k + 1)

/-- If every status check of `behavior` yields a non-terminal task, the
loop polls exactly while `k * interval < maxWait` and then throws the
timeout error; `q` is the first iteration index at which the deadline has
elapsed. -/
lemma pollAux_timeout (behavior : Nat → QueryOutcome) (tid : String)
    (interval maxWait q : Nat)
    (hnt : ∀ k, nonTerminal (checkTaskStatus tid (behavior k)))
    (hq1 : ∀ j, j < q → j * interval < maxWait)
    (hq2 : maxWait ≤ q * interval) :
    ∀ fuel k, k ≤ q → q - k < fuel →
      pollAux behavior tid interval maxWait fuel k
        = (Except.error timeoutMessage, procTrace interval k (q - k)) := by
  intro fuel
  induction fuel with
  | zero => intro k _ hf; omega
  | succ fuel ih =>
    intro k hk hf
    rcases Nat.lt_or_eq_of_le hk with hklt | hkeq
    · have hguard : k * interval < maxWait := hq1 k hklt
      have hrest := ih (k + 1) hklt (by omega)
      have hnk : q - k = (q - (k + 1)) + 1 := by omega
      have hntk := hnt k
      rw [hnk]
      simp only [pollAux, procTrace]
      rw [if_pos hguard, if_neg hntk.1, if_neg hntk.2, hrest]
    · subst hkeq
      have hguard : ¬(k * interval < maxWait) := Nat.not_lt.mpr hq2
      simp only [pollAux]
      rw [if_neg hguard]
      simp [procTrace]

/-- Against `procThenSuccess n`, the loop does `n` query-and-sleep
iterations and resolves on the (n+1)-th query, provided the deadline has
not elapsed by iteration `n`. -/
lemma pollAux_procThenSuccess (tid fid url : String) (n interval maxWait : Nat)
    (hfid : fid ≠ "") (hurl : url ≠ "") (hn : n * interval < maxWait) :
    ∀ fuel k, k ≤ n → n - k < fuel →
      pollAux (procThenSuccess n fid url) tid interval maxWait fuel k
        = (Except.ok (successTask tid fid url),
           procTrace interval k (n - k) ++ [PollEvent.query n]) := by
  intro fuel
  induction fuel with
  | zero => intro k _ hf; omega
  | succ fuel ih =>
    intro k hk hf
    rcases Nat.lt_or_eq_of_le hk with hklt | hkeq
    · have hguard : k * interval < maxWait := by
        have h1 : k * interval ≤ n * interval :=
          Nat.mul_le_mul_right interval (le_of_lt hklt)
        omega
      have hbeh : procThenSuccess n fid url k = procOutcome := by
        simp [procThenSuccess, hklt]
      have hrest := ih (k + 1) hklt (by omega)
      have hnk : n - k = (n - (k + 1)) + 1 := by omega
      have hnt := nonTerminal_processingTask tid
      rw [hnk]
      simp only [pollAux, procTrace, List.cons_append]
      rw [hbeh, checkTaskStatus_procOutcome,
        if_pos hguard, if_neg hnt.1, if_neg hnt.2, hrest]
    · subst hkeq
      have hbeh : procThenSuccess k fid url k = successOutcome fid url := by
        simp [procThenSuccess]
      have hterm : (successTask tid fid url).status = Status.completed ∧
          truthyStr (successTask tid fid url).video_url = true := by
        exact ⟨rfl, truthyStr_some_of_ne url hurl⟩
      simp only [pollAux]
      rw [hbeh, checkTaskStatus_successOutcome tid fid url hfid,
        if_pos hn, if_pos hterm]
      simp [procTrace]

/-- Whenever a poll run returns normally, the returned task was observed
`completed` with a truthy (non-empty) `video_url`: those are the only
conditions under which the loop body executes `return status`. -/
lemma pollAux_ok_completed (behavior : Nat → QueryOutcome) (tid : String)
    (interval maxWait : Nat) :
    ∀ fuel k t tr,
      pollAux behavior tid interval maxWait fuel k = (Except.ok t, tr) →
        t.status = Status.completed ∧ truthyStr t.video_url = true := by
  intro fuel
  induction fuel with
  | zero =>
    intro k t tr h
    simp [pollAux] at h
  | succ fuel ih =>
    intro k t tr h
    simp only [pollAux] at h
    by_cases hg : k * interval < maxWait
    · rw [if_pos hg] at h
      by_cases h1 : (checkTaskStatus tid (behavior k)).status = Status.completed ∧
          truthyStr (checkTaskStatus tid (behavior k)).video_url = true
      · rw [if_pos h1] at h
        obtain ⟨ht, -⟩ := Prod.mk.injEq .. ▸ h
        have : checkTaskStatus tid (behavior k) = t := by
          exact Except.ok.inj (by exact_mod_cast congrArg Prod.fst h)
        rw [← this]
        exact h1
      · rw [if_neg h1] at h
        by_cases h2 : (checkTaskStatus tid (behavior k)).status = Status.failed
        · rw [if_pos h2] at h
          have := congrArg Prod.fst h
          simp at this
        · rw [if_neg h2] at h
          have h3 := congrArg Prod.fst h
          simp only at h3
          exact ih (k + 1) t
            (pollAux behavior tid interval maxWait fuel (k + 1)).2
            (by rw [← h3])
    · rw [if_neg hg] at h
      have := congrArg Prod.fst h
      simp at this

/-- C1, as the code actually behaves (amended): if the k-th status query
fails at the transport level while the deadline has not elapsed,
`checkTaskStatus` converts the failure into a `'failed'` task value and
the poll loop throws immediately after that single query — it does not
continue polling. -/
theorem poll_stops_on_transport_error
    (behavior : Nat → QueryOutcome) (tid msg : String)
    (interval maxWait fuel k : Nat)
    (hbeh : (behavior k).query = Except.error msg)
    (hk : k * interval < maxWait) :
    pollAux behavior tid interval maxWait (fuel + 1) k
      = (Except.error (orElseStr (some msg) ("Video generation failed")),
         [PollEvent.query k]) := by
  have hchk : checkTaskStatus tid (behavior k)
      = { task_id := tid, status := Status.failed, file_id := none,
          video_url := none, error := some msg } := by
    unfold checkTaskStatus
    rw [hbeh]
  simp [pollAux, hk, hchk]

/-- Witness for `poll_stops_on_transport_error` at a concrete input. -/
theorem poll_stops_on_transport_error_witness :
    pollAux (fun _ => transportFailEnv ("socket hang up")) ("361720188367060")
        3000 300000 (300000 + 1) 0
      = (Except.error (orElseStr (some ("socket hang up"))
          ("Video generation failed")), [PollEvent.query 0]) :=
  poll_stops_on_transport_error (fun _ => transportFailEnv ("socket hang up"))
    ("361720188367060") ("socket hang up") 3000 300000 300000 0 rfl (by decide)

/-- C1 counterexample: on the very first transient transport error
("socket hang up" on query 0, with the 300000 ms deadline nowhere near
elapsed), `waitForVideoCompletion` terminates at once with that error
after exactly one status query — it does not continue polling. -/
theorem transport_error_first_poll_fails_cex :
    waitForVideoCompletion (fun _ => transportFailEnv ("socket hang up"))
        ("361720188367060") 300000
      = (Except.error ("socket hang up"), [PollEvent.query 0])
    ∧ queryCount [PollEvent.query 0] = 1
    ∧ 0 * 3000 < 300000 :=
  ⟨rfl, rfl, by decide⟩

/-- C2 (amended): against a provider answering `Processing` for the first
`n` queries and then `Success` with a non-empty file id resolving to a
non-empty URL, the poll loop issues exactly `n + 1` status queries and
sleeps the full configured interval exactly once between consecutive
queries — provided `n * interval < maxWait`, i.e. the deadline has not
elapsed by the final query; for larger `n` the run times out instead
(see the counterexample). -/
theorem poll_exact_queries_and_sleeps
    (n interval maxWait : Nat) (tid fid url : String)
    (hpos : 0 < interval) (hfid : fid ≠ "") (hurl : url ≠ "")
    (hn : n * interval < maxWait) :
    pollLoop (procThenSuccess n fid url) tid interval maxWait
        = (Except.ok (successTask tid fid url),
           procTrace interval 0 n ++ [PollEvent.query n])
      ∧ queryCount (procTrace interval 0 n ++ [PollEvent.query n]) = n + 1 := by
  have hfuel : n - 0 < maxWait + 1 := by
    have h1 : n * 1 ≤ n * interval := Nat.mul_le_mul_left n hpos
    omega
  have hrun := pollAux_procThenSuccess tid fid url n interval maxWait hfid hurl
    hn (maxWait + 1) 0 (Nat.zero_le n) hfuel
  constructor
  · simpa [pollLoop] using hrun
  · simp [queryCount, List.countP_append] at *
    have := queryCount_procTrace interval n 0
    simp [queryCount] at this
    omega

/-- Witness for `poll_exact_queries_and_sleeps` at a concrete input
(`n = 2`, the stock 3000 ms interval and 300000 ms deadline). -/
theorem poll_exact_queries_and_sleeps_witness :
    pollLoop (procThenSuccess 2 ("361721749176519") ("https://cdn.example.com/v.mp4"))
        ("361720188367060") 3000 300000
        = (Except.ok (successTask ("361720188367060") ("361721749176519")
             ("https://cdn.example.com/v.mp4")),
           procTrace 3000 0 2 ++ [PollEvent.query 2])
      ∧ queryCount (procTrace 3000 0 2 ++ [PollEvent.query 2]) = 2 + 1 :=
  poll_exact_queries_and_sleeps 2 3000 300000 ("361720188367060")
    ("361721749176519") ("https://cdn.example.com/v.mp4")
    (by decide) (by decide) (by decide) (by decide)

/-- C2 counterexample: with `N = 3` and `maxWaitMs = 9000` the claim's
unrestricted "for every N ≥ 0 … exactly N+1 queries before resolving" is
false: the deadline elapses first, the run throws the timeout error, and
only 3 (not 4) status queries are ever issued. -/
theorem poll_deadline_caps_queries_cex :
    waitForVideoCompletion
        (procThenSuccess 3 ("361721749176519") ("https://cdn.example.com/v.mp4"))
        ("361720188367060") 9000
      = (Except.error timeoutMessage, procTrace 3000 0 3)
    ∧ queryCount (procTrace 3000 0 3) = 3 :=
  ⟨rfl, rfl⟩

/-- C3: against a provider whose status never leaves `Processing`, the poll
loop keeps polling at every iteration that starts before the deadline
(`j * interval < maxWait` for all `j < q`) and throws the dedicated
timeout error at the first iteration `q` at which `maxWait` has elapsed —
not before, and not indefinitely; the timeout message differs from the
default message of a provider-reported `failed` terminal status, so the
two outcomes are distinguishable. -/
theorem poll_timeout_after_deadline (interval maxWait q : Nat) (tid : String)
    (hpos : 0 < interval)
    (hq1 : ∀ j, j < q → j * interval < maxWait)
    (hq2 : maxWait ≤ q * interval) :
    pollLoop alwaysProcessing tid interval maxWait
        = (Except.error timeoutMessage, procTrace interval 0 q)
      ∧ queryCount (procTrace interval 0 q) = q
      ∧ timeoutMessage ≠ ("Video generation failed") := by
  have hnt : ∀ k, nonTerminal (checkTaskStatus tid (alwaysProcessing k)) := by
    intro k
    rw [show alwaysProcessing k = procOutcome from rfl, checkTaskStatus_procOutcome]
    exact nonTerminal_processingTask tid
  have hfuel : q - 0 < maxWait + 1 := by
    rcases Nat.eq_zero_or_pos q with hq0 | hqpos
    · omega
    · have := hq1 (q - 1) (by omega)
      have h1 : (q - 1) * 1 ≤ (q - 1) * interval :=
        Nat.mul_le_mul_left (q - 1) hpos
      omega
  have hrun := pollAux_timeout alwaysProcessing tid interval maxWait q hnt hq1
    hq2 (maxWait + 1) 0 (Nat.zero_le q) hfuel
  refine ⟨by simpa [pollLoop] using hrun, queryCount_procTrace interval q 0, by decide⟩

/-- Witness for `poll_timeout_after_deadline`: with the stock 3000 ms
interval and a deadline of five intervals (15000 ms) the run times out
after exactly 5 status queries. -/
theorem poll_timeout_after_deadline_witness :
    pollLoop alwaysProcessing ("361720188367060") 3000 15000
        = (Except.error timeoutMessage, procTrace 3000 0 5)
      ∧ queryCount (procTrace 3000 0 5) = 5
      ∧ timeoutMessage ≠ ("Video generation failed") :=
  poll_timeout_after_deadline 3000 15000 5 ("361720188367060")
    (by decide) (by intro j hj; omega) (by decide)

lemma truthyStr_getD_ne (o : Option String) (h : truthyStr o = true) :
    o.getD ("") ≠ "" := by
  cases o with
  | none => simp [truthyStr] at h
  | some s =>
    simp [truthyStr] at h
    simpa using h

/-- C4: for every valid (non-empty) prompt, `createVideoTask` either
returns a non-empty task id or an error; it never returns the empty
string as a task identifier (JS truthiness rejects both a missing and an
empty `task_id`/`id` field, falling through to the thrown error). -/
theorem createTask_never_empty_id
    (prompt : String) (maxDuration : Nat)
    (provider : String → Except AxiosError CreateResponse) (s : String)
    (hprompt : prompt ≠ "")
    (h : createVideoTask prompt maxDuration provider = Except.ok s) :
    s ≠ "" := by
  unfold createVideoTask at h
  cases hresp : provider (videoPrompt prompt maxDuration) with
  | ok result =>
    rw [hresp] at h
    dsimp only at h
    by_cases h1 : truthyStr result.task_id = true
    · rw [if_pos h1] at h
      have h2 := truthyStr_getD_ne result.task_id h1
      have h3 : result.task_id.getD ("") = s := Except.ok.inj h
      rw [← h3]
      exact h2
    · rw [if_neg h1] at h
      by_cases h2 : truthyStr result.id = true
      · rw [if_pos h2] at h
        have h3 := truthyStr_getD_ne result.id h2
        have h4 : result.id.getD ("") = s := Except.ok.inj h
        rw [← h4]
        exact h3
      · rw [if_neg h2] at h
        simp at h
  | error e =>
    rw [hresp] at h
    dsimp only at h
    split at h
    · simp at h
    · split at h
      · simp at h
      · split at h
        · simp at h
        · simp at h

/-- Witness for `createTask_never_empty_id` at a concrete input. -/
theorem createTask_never_empty_id_witness :
    createVideoTask ("What is recursion?") 5
        (fun _ => Except.ok
          { task_id := some ("361720188367060"), id := none, raw := ("\x7b\x7d") })
      = Except.ok ("361720188367060")
    ∧ ("361720188367060" : String) ≠ "" :=
  ⟨rfl,
   createTask_never_empty_id ("What is recursion?") 5
     (fun _ => Except.ok
       { task_id := some ("361720188367060"), id := none, raw := ("\x7b\x7d") })
     ("361720188367060") (by decide) rfl⟩

/-- C5: the status parser lowercases the provider string before comparing,
so any casing of "success"/"processing"/"failed" maps to the matching
internal status, and every other (or missing) status string maps to
`pending`, keeping the poll loop going. -/
theorem status_normalization_case_insensitive :
    (∀ s, toLowerStr s = "success" → parseStatus (some s) = Status.completed)
  ∧ (∀ s, toLowerStr s = "processing" → parseStatus (some s) = Status.processing)
  ∧ (∀ s, toLowerStr s = "failed" → parseStatus (some s) = Status.failed)
  ∧ (∀ s, toLowerStr s ≠ "success" → toLowerStr s ≠ "processing" →
        toLowerStr s ≠ "failed" → parseStatus (some s) = Status.pending)
  ∧ parseStatus none = Status.pending := by
  refine ⟨?_, ?_, ?_, ?_, rfl⟩ <;> intro s
  · intro h
    simp [parseStatus, h]
  · intro h
    simp [parseStatus, h]
  · intro h
    simp [parseStatus, h]
  · intro h1 h2 h3
    simp [parseStatus, h1, h2, h3]

/-- Witness for `status_normalization_case_insensitive` on concrete
status strings of each kind. -/
theorem status_normalization_case_insensitive_witness :
    parseStatus (some ("SUCCESS")) = Status.completed
  ∧ parseStatus (some ("Processing")) = Status.processing
  ∧ parseStatus (some ("FaIlEd")) = Status.failed
  ∧ parseStatus (some ("queueing")) = Status.pending :=
  ⟨status_normalization_case_insensitive.1 ("SUCCESS") (by decide),
   status_normalization_case_insensitive.2.1 ("Processing") (by decide),
   status_normalization_case_insensitive.2.2.1 ("FaIlEd") (by decide),
   status_normalization_case_insensitive.2.2.2.1 ("queueing")
     (by decide) (by decide) (by decide)⟩

/-- C10: `checkTaskStatus` is total with errors as values — a transport
failure of the status query and a non-zero `base_resp.status_code`
envelope (authentication rejections are transport failures here, since
axios throws on HTTP error statuses) both come back as an ordinary task
value with status `'failed'` carrying the error message, never as a
thrown error; the value produced by a transport failure is literally
identical to the one produced by a provider-reported `"Failed"` status
with the same message, so the poller cannot tell them apart. -/
theorem checkTaskStatus_total_failures_as_values :
    (∀ tid env msg, env.query = Except.error msg →
       checkTaskStatus tid env
         = { task_id := tid, status := Status.failed, file_id := none,
             video_url := none, error := some msg })
  ∧ (∀ tid env r, env.query = Except.ok r →
       r.base_resp.map BaseResp.status_code ≠ some 0 →
       checkTaskStatus tid env
         = { task_id := tid, status := Status.failed, file_id := none,
             video_url := none,
             error := some (orElseStr (r.base_resp.bind BaseResp.status_msg)
               ("Status check failed")) })
  ∧ (∀ tid msg, checkTaskStatus tid (transportFailEnv msg)
       = checkTaskStatus tid (providerFailedEnv msg)) := by
  refine ⟨?_, ?_, ?_⟩
  · intro tid env msg h
    unfold checkTaskStatus
    rw [h]
  · intro tid env r h hb
    unfold checkTaskStatus
    rw [h]
    dsimp only
    rw [if_pos hb]
  · intro tid msg
    rfl

/-- Witness for `checkTaskStatus_total_failures_as_values` at a concrete
transport failure. -/
theorem checkTaskStatus_total_failures_as_values_witness :
    checkTaskStatus ("361720188367060") (transportFailEnv ("socket hang up"))
      = { task_id := ("361720188367060"), status := Status.failed,
          file_id := none, video_url := none,
          error := some ("socket hang up") } :=
  checkTaskStatus_total_failures_as_values.1 ("361720188367060")
    (transportFailEnv ("socket hang up")) ("socket hang up") rfl

/-- A status-query outcome reporting `"Success"` with file id `fid`, whose
`files/retrieve` round-trip succeeds at the transport level but returns a
file object with no `download_url`. -/
def noUrlOutcome (fid : String) : QueryOutcome :=
  { query := Except.ok
      { base_resp := some { status_code := 0, status_msg := none },
        status := some ("Success"), file_id := some fid, error := none },
    retrieve := Except.ok { file := some { download_url := none } } }

/-- C6 (amended): when a `Completed` status carries a file reference whose
`files/retrieve` lookup succeeds at the transport level but yields an
empty or missing `download_url`, `checkTaskStatus` raises nothing: it
returns the task as `completed` with the untruthy `video_url` and with the
response's own `error` field (none in this situation), and the poll loop
treats that task as non-terminal, polling on until the deadline (here
9000 ms at the stock 3000 ms interval, i.e. 3 queries) — the missing URL
is silently swallowed; an empty-string URL is likewise never accepted as
valid. -/
theorem missing_download_url_keeps_polling
    (tid : String) (env : QueryOutcome) (r : QueryResponse)
    (fr : RetrieveResponse)
    (hq : env.query = Except.ok r)
    (hbr : r.base_resp.map BaseResp.status_code = some 0)
    (hst : parseStatus r.status = Status.completed)
    (hfid : truthyStr r.file_id = true)
    (hr : env.retrieve = Except.ok fr)
    (hurl : truthyStr (fr.file.bind FileObj.download_url) = false) :
    checkTaskStatus tid env
        = { task_id := tid, status := Status.completed, file_id := r.file_id,
            video_url := fr.file.bind FileObj.download_url, error := r.error }
      ∧ pollLoop (fun _ => env) tid 3000 9000
          = (Except.error timeoutMessage, procTrace 3000 0 3) := by
  have hchk : checkTaskStatus tid env
      = { task_id := tid, status := Status.completed, file_id := r.file_id,
          video_url := fr.file.bind FileObj.download_url, error := r.error } := by
    unfold checkTaskStatus
    rw [hq]
    simp [hbr, hfid, hr, hst]
  have hnt : ∀ k : Nat,
      nonTerminal (checkTaskStatus tid ((fun _ : Nat => env) k)) := by
    intro k
    constructor
    · intro hc
      rw [hchk] at hc
      simp [hurl] at hc
    · rw [hchk]
      simp
  have hrun := pollAux_timeout (fun _ => env) tid 3000 9000 3 hnt
    (by intro j hj; omega) (by omega) (9000 + 1) 0 (by omega) (by omega)
  exact ⟨hchk, by simpa [pollLoop] using hrun⟩

/-- Witness for `missing_download_url_keeps_polling` at a concrete input. -/
theorem missing_download_url_keeps_polling_witness :
    checkTaskStatus ("361720188367060") (noUrlOutcome ("361721749176519"))
        = { task_id := ("361720188367060"), status := Status.completed,
            file_id := some ("361721749176519"), video_url := none,
            error := none }
      ∧ pollLoop (fun _ => noUrlOutcome ("361721749176519"))
          ("361720188367060") 3000 9000
          = (Except.error timeoutMessage, procTrace 3000 0 3) :=
  missing_download_url_keeps_polling ("361720188367060")
    (noUrlOutcome ("361721749176519"))
    { base_resp := some { status_code := 0, status_msg := none },
      status := some ("Success"), file_id := some ("361721749176519"),
      error := none }
    { file := some { download_url := none } }
    rfl rfl (by decide) (by decide) rfl rfl

/-- C6 counterexample: a `Completed` status whose file reference resolves
(transport-level success) to a file object with no `download_url` makes
`checkTaskStatus` return an ordinary completed task with `video_url` and
`error` both absent — no error of any kind is raised — and a poll run
against this provider keeps polling until the deadline instead of
aborting: the condition is silently swallowed, contradicting the claim
that a `ResolutionError` is raised. -/
theorem missing_download_url_silent_cex :
    checkTaskStatus ("361720188367060") (noUrlOutcome ("361721749176519"))
      = { task_id := ("361720188367060"), status := Status.completed,
          file_id := some ("361721749176519"), video_url := none,
          error := none }
    ∧ pollLoop (fun _ => noUrlOutcome ("361721749176519"))
        ("361720188367060") 3000 9000
        = (Except.error timeoutMessage, procTrace 3000 0 3)
    ∧ queryCount (procTrace 3000 0 3) = 3 :=
  ⟨rfl, rfl, rfl⟩

namespace DownloadCli

/-- Parsed body of the status query as read by `getVideoStatus`
(download-video.js, lines 37-42): `base_resp`, `file_id`, `status`. -/
structure QueryData where
  base_resp : Option BaseResp
  status : Option String
  file_id : Option String
  deriving DecidableEq, Repr

/-- Outcomes of the two round-trips one `getVideoStatus` call can make. -/
structure Env where
  query : Except String QueryData
  retrieve : Except String RetrieveResponse

/-- The object `getVideoStatus` returns when it succeeds
(download-video.js, lines 53-59; the `raw` field is dropped). -/
structure StatusResult where
  status : Option String
  video_url : Option String
  file_id : Option String
  task_id : String
  deriving DecidableEq, Repr

/-- `getVideoStatus` (download-video.js, lines 20-68): on any thrown error
(either round-trip) the `catch` returns `null`; a non-zero
`base_resp.status_code` or a falsy `file_id` falls through to the final
`return null`; otherwise the raw (unnormalized) `status` string and the
resolved `download_url` are returned. -/
def getVideoStatus (taskId : String) (env : Env) : Option StatusResult :=
  match env.query with
  | Except.error _ => none
  | Except.ok data =>
    if data.base_resp.map BaseResp.status_code = some 0 then
      if truthyStr data.file_id then
        match env.retrieve with
        | Except.error _ => none
        | Except.ok fr =>
          some { status := data.status,
                 video_url := fr.file.bind FileObj.download_url,
                 file_id := data.file_id, task_id := taskId }
      else none
    else none

/-- Loop body of `downloadVideoByTaskId` (download-video.js, lines
107-156), instrumented to return the invocation of the persistence step:
`some (observedStatus, url)` exactly when line 140 calls
`downloadVideo(status.video_url, …)` — which the code guards only by the
truthiness of `status.video_url`, never by the observed status — and
`none` when the run ends without downloading (status unavailable, not
ready without `--wait`, or attempts exhausted).  `k` counts completed
attempts, so the retry guard `attempts < maxAttempts` after the increment
reads `k + 1 < maxAttempts`. -/
def downloadVideoByTaskIdAux (behavior : Nat → Env) (taskId : String)
    (wait : Bool) (maxAttempts : Nat) :
    Nat → Nat → Option (Option String × String)
  | 0, _ => none
  | fuel + 1, k =>
    if k < maxAttempts then
      match getVideoStatus taskId (behavior k) with
      | none =>
        if wait = true ∧ k + 1 < maxAttempts then
          downloadVideoByTaskIdAux behavior taskId wait maxAttempts fuel (k + 1)
        else none
      | some st =>
        if truthyStr st.video_url then
          some (st.status, st.video_url.getD (""))
        else if wait = true ∧ k + 1 < maxAttempts then
          downloadVideoByTaskIdAux behavior taskId wait maxAttempts fuel (k + 1)
        else none
    else none

/-- `downloadVideoByTaskId` (download-video.js, line 112):
`maxAttempts = waitForCompletion ? 40 : 1`; fuel `maxAttempts` suffices
since every iteration requires `k < maxAttempts`. -/
def downloadVideoByTaskId (behavior : Nat → Env) (taskId : String)
    (wait : Bool) : Option (Option String × String) :=
  let maxAttempts : Nat := if wait then 40 else 1
  downloadVideoByTaskIdAux behavior taskId wait maxAttempts maxAttempts 0

end DownloadCli

/-- A CLI status-check outcome whose provider reports raw status
`"Processing"` yet already carries a file id that resolves to `url`. -/
def processingWithUrlEnv (fid url : String) : DownloadCli.Env :=
  { query := Except.ok
      { base_resp := some { status_code := 0, status_msg := none },
        status := some ("Processing"), file_id := some fid },
    retrieve := Except.ok { file := some { download_url := some url } } }

/-- C7 (amended): persistence is only ever invoked with a non-empty
resolved download URL — in the CLI loop because the invocation is guarded
by the truthiness of `status.video_url`, and in the service workflow
because a poll run only returns normally on a `completed` observation
with a truthy `video_url`.  The CLI loop, however, checks only the URL,
not the observed status (see the counterexample). -/
theorem persist_requires_nonempty_url :
    (∀ (behavior : Nat → DownloadCli.Env) (tid : String) (wait : Bool)
       (maxAttempts fuel k : Nat) (obs : Option String) (url : String),
       DownloadCli.downloadVideoByTaskIdAux behavior tid wait maxAttempts fuel k
           = some (obs, url) → url ≠ "")
  ∧ (∀ (behavior : Nat → QueryOutcome) (tid : String)
       (interval maxWait fuel k : Nat) (t : VideoGenerationTask)
       (tr : List PollEvent),
       pollAux behavior tid interval maxWait fuel k = (Except.ok t, tr) →
         t.status = Status.completed ∧ truthyStr t.video_url = true) := by
  constructor
  · intro behavior tid wait maxAttempts fuel
    induction fuel with
    | zero =>
      intro k obs url h
      simp [DownloadCli.downloadVideoByTaskIdAux] at h
    | succ fuel ih =>
      intro k obs url h
      simp only [DownloadCli.downloadVideoByTaskIdAux] at h
      by_cases hk : k < maxAttempts
      · rw [if_pos hk] at h
        cases hst : DownloadCli.getVideoStatus tid (behavior k) with
        | none =>
          rw [hst] at h
          dsimp only at h
          by_cases hw : wait = true ∧ k + 1 < maxAttempts
          · rw [if_pos hw] at h
            exact ih (k + 1) obs url h
          · rw [if_neg hw] at h
            simp at h
        | some st =>
          rw [hst] at h
          dsimp only at h
          by_cases hu : truthyStr st.video_url = true
          · rw [if_pos hu] at h
            have hp := Option.some.inj h
            have hurl : st.video_url.getD ("") = url := congrArg Prod.snd hp
            rw [← hurl]
            exact truthyStr_getD_ne st.video_url hu
          · rw [if_neg hu] at h
            by_cases hw : wait = true ∧ k + 1 < maxAttempts
            · rw [if_pos hw] at h
              exact ih (k + 1) obs url h
            · rw [if_neg hw] at h
              simp at h
      · rw [if_neg hk] at h
        simp at h
  · intro behavior tid interval maxWait fuel k t tr h
    exact pollAux_ok_completed behavior tid interval maxWait fuel k t tr h

/-- Witness for `persist_requires_nonempty_url`: both conjuncts applied at
concrete runs (a CLI run that persists, and a poll run that resolves). -/
theorem persist_requires_nonempty_url_witness :
    (("https://cdn.example.com/v.mp4" : String) ≠ "")
  ∧ ((successTask ("361720188367060") ("361721749176519")
        ("https://cdn.example.com/v.mp4")).status = Status.completed
      ∧ truthyStr (successTask ("361720188367060") ("361721749176519")
          ("https://cdn.example.com/v.mp4")).video_url = true) :=
  ⟨persist_requires_nonempty_url.1
     (fun _ => processingWithUrlEnv ("361721749176519")
       ("https://cdn.example.com/v.mp4"))
     ("361720188367060") false 1 1 0 (some ("Processing"))
     ("https://cdn.example.com/v.mp4") rfl,
   persist_requires_nonempty_url.2
     (procThenSuccess 0 ("361721749176519") ("https://cdn.example.com/v.mp4"))
     ("361720188367060") 3000 300000 (300000 + 1) 0
     (successTask ("361720188367060") ("361721749176519")
       ("https://cdn.example.com/v.mp4"))
     [PollEvent.query 0] rfl⟩

/-- C7 counterexample: `downloadVideoByTaskId` invokes the persistence
step whenever the status query yields a truthy resolved URL, even when
the observed provider status is `"Processing"` — i.e. a local artifact
would be created from a task never observed Completed, contradicting the
claimed workflow invariant. -/
theorem persist_without_completed_cex :
    DownloadCli.downloadVideoByTaskId
        (fun _ => processingWithUrlEnv ("361721749176519")
          ("https://cdn.example.com/v.mp4"))
        ("361720188367060") false
      = some (some ("Processing"), ("https://cdn.example.com/v.mp4"))
    ∧ parseStatus (some ("Processing")) ≠ Status.completed :=
  ⟨rfl, by decide⟩

/-- Local filesystem state: which directories exist, and each file's
content (a byte sequence, bytes as `Nat`). -/
structure FileSystem where
  dirs : List String
  files : List (String × List Nat)
  deriving DecidableEq, Repr

/-- Filesystem side effects, in the order the code performs them. -/
inductive FsOp where
  | mkdirRec (dir : String)
  | writeFile (path : String) (content : List Nat)
  deriving DecidableEq, Repr

/-- `fs.existsSync` on a directory path. -/
def existsSync (fs : FileSystem) (d : String) : Bool :=
  fs.dirs.contains d

/-- `path.join(a, b)` for a simple two-component join. -/
def pathJoin (a b : String) : String :=
  a ++ ("/") ++ b

/-- The derived filename `` `video_${taskId}_${Date.now()}.mp4` ``
(minimaxVideo.ts, line 233; download-video.js, line 89). -/
def videoFilename (taskId : String) (now : Nat) : String :=
  ("video_") ++ taskId ++ ("_") ++ toString now ++ (".mp4")

/-- Recorded size of the file at `p`: the length of its stored content. -/
def fileSize (fs : FileSystem) (p : String) : Option Nat :=
  (fs.files.lookup p).map List.length

/-- `MinimaxVideoService.downloadVideo` (minimaxVideo.ts, lines 215-245).
`net` models the binary `GET` on the URL.  The directory check-and-create
happens before the network call (lines 221-223), so it is performed even
when the download then fails; the write stores exactly the received
payload, and the size the code reports is computed from
`response.data.byteLength`, i.e. from the stored content's length here,
not from any provider metadata.  Returns the thrown-or-returned result,
the final filesystem, and the ordered side-effect list. -/
def downloadVideo (net : String → Except String (List Nat)) (fs : FileSystem)
    (videoUrl taskId outputDir : String) (now : Nat) :
    Except String String × FileSystem × List FsOp :=
  let step1 : FileSystem × List FsOp :=
    if existsSync fs outputDir then (fs, [])
    else ({ fs with dirs := outputDir :: fs.dirs }, [FsOp.mkdirRec outputDir])
  match net videoUrl with
  | Except.error msg =>
    (Except.error (("Failed to download video: ") ++ msg), step1.1, step1.2)
  | Except.ok bytes =>
    let filepath := pathJoin outputDir (videoFilename taskId now)
    (Except.ok filepath,
     { step1.1 with files := (filepath, bytes) :: step1.1.files },
     step1.2 ++ [FsOp.writeFile filepath bytes])

/-- C8: a download of a payload of `N` bytes returns the derived path,
records a file whose size is exactly `N` (computed from the received
payload), and guarantees the destination directory exists afterwards;
when the directory was absent the recursive `mkdir` is the first recorded
side effect, strictly before the write. -/
theorem download_size_and_dir_creation
    (net : String → Except String (List Nat)) (fs : FileSystem)
    (videoUrl taskId outputDir : String) (now : Nat) (bytes : List Nat)
    (N : Nat)
    (hnet : net videoUrl = Except.ok bytes) (hN : bytes.length = N) :
    (downloadVideo net fs videoUrl taskId outputDir now).1
        = Except.ok (pathJoin outputDir (videoFilename taskId now))
      ∧ fileSize (downloadVideo net fs videoUrl taskId outputDir now).2.1
          (pathJoin outputDir (videoFilename taskId now)) = some N
      ∧ existsSync (downloadVideo net fs videoUrl taskId outputDir now).2.1
          outputDir = true
      ∧ (existsSync fs outputDir = false →
          (downloadVideo net fs videoUrl taskId outputDir now).2.2
            = [FsOp.mkdirRec outputDir,
               FsOp.writeFile (pathJoin outputDir (videoFilename taskId now))
                 bytes])
      ∧ (existsSync fs outputDir = true →
          (downloadVideo net fs videoUrl taskId outputDir now).2.2
            = [FsOp.writeFile (pathJoin outputDir (videoFilename taskId now))
                 bytes]) := by
  unfold downloadVideo
  rw [hnet]
  by_cases hd : outputDir ∈ fs.dirs
  · simp [hd, fileSize, List.lookup, hN, existsSync]
  · simp [hd, fileSize, List.lookup, hN, existsSync]

/-- Concrete 3-byte payload server for the C8 witness. -/
def net8 : String → Except String (List Nat) :=
  fun _ => Except.ok [10, 20, 30]

/-- An initially empty filesystem. -/
def emptyFs : FileSystem :=
  { dirs := [], files := [] }

/-- Witness for `download_size_and_dir_creation` at a concrete input
(3-byte payload, absent destination directory). -/
theorem download_size_and_dir_creation_witness :
    (downloadVideo net8 emptyFs ("https://cdn.example.com/v.mp4")
        ("361720188367060") ("./videos") 1730000000000).1
        = Except.ok (pathJoin ("./videos")
            (videoFilename ("361720188367060") 1730000000000))
      ∧ fileSize (downloadVideo net8 emptyFs ("https://cdn.example.com/v.mp4")
            ("361720188367060") ("./videos") 1730000000000).2.1
          (pathJoin ("./videos") (videoFilename ("361720188367060")
            1730000000000)) = some 3
      ∧ existsSync (downloadVideo net8 emptyFs ("https://cdn.example.com/v.mp4")
            ("361720188367060") ("./videos") 1730000000000).2.1
          ("./videos") = true
      ∧ (existsSync emptyFs ("./videos") = false →
          (downloadVideo net8 emptyFs ("https://cdn.example.com/v.mp4")
              ("361720188367060") ("./videos") 1730000000000).2.2
            = [FsOp.mkdirRec ("./videos"),
               FsOp.writeFile (pathJoin ("./videos")
                 (videoFilename ("361720188367060") 1730000000000))
                 [10, 20, 30]])
      ∧ (existsSync emptyFs ("./videos") = true →
          (downloadVideo net8 emptyFs ("https://cdn.example.com/v.mp4")
              ("361720188367060") ("./videos") 1730000000000).2.2
            = [FsOp.writeFile (pathJoin ("./videos")
                 (videoFilename ("361720188367060") 1730000000000))
                 [10, 20, 30]]) :=
  download_size_and_dir_creation net8 emptyFs ("https://cdn.example.com/v.mp4")
    ("361720188367060") ("./videos") 1730000000000 [10, 20, 30] 3 rfl rfl

/-- `MinimaxVideoService.generateVideo` (minimaxVideo.ts, lines 194-210):
create a task, poll it to completion (with the default 300000 ms
deadline), then require a truthy `video_url`. -/
def generateVideo (prompt : String) (maxDuration : Nat)
    (provider : String → Except AxiosError CreateResponse)
    (behavior : Nat → QueryOutcome) : Except String String :=
  match createVideoTask prompt maxDuration provider with
  | Except.error e => Except.error e
  | Except.ok taskId =>
    match waitForVideoCompletion behavior taskId 300000 with
    | (Except.error e, _) => Except.error e
    | (Except.ok result, _) =>
      if truthyStr result.video_url then
        Except.ok (result.video_url.getD (""))
      else Except.error ("Video URL not available")

/-- `MinimaxVideoService.generateAndDownloadVideo` (minimaxVideo.ts,
lines 250-263).  Note line 260: the code calls
`this.downloadVideo(videoUrl, videoUrl, outputDir)`, passing the resolved
`videoUrl` in the `taskId` parameter position as well. -/
def generateAndDownloadVideo (prompt : String) (maxDuration : Nat)
    (provider : String → Except AxiosError CreateResponse)
    (behavior : Nat → QueryOutcome)
    (net : String → Except String (List Nat)) (fs : FileSystem)
    (outputDir : String) (now : Nat) :
    Except String (String × String) × FileSystem × List FsOp :=
  match generateVideo prompt maxDuration provider behavior with
  | Except.error e => (Except.error e, fs, [])
  | Except.ok videoUrl =>
    match downloadVideo net fs videoUrl videoUrl outputDir now with
    | (Except.error e, fs2, ops) => (Except.error e, fs2, ops)
    | (Except.ok localPath, fs2, ops) =>
      (Except.ok (videoUrl, localPath), fs2, ops)

/-- `needle` occurs as a contiguous substring of the character list. -/
def strContainsAux (needle : List Char) : List Char → Bool
  | [] => needle.isEmpty
  | c :: rest => List.isPrefixOf needle (c :: rest) || strContainsAux needle rest

/-- `hay.includes(needle)` on strings. -/
def strContains (hay needle : String) : Bool :=
  strContainsAux needle.data hay.data

/-- Create-task provider used in the C9 scenario: returns task id
`361720188367060`. -/
def bugProvider : String → Except AxiosError CreateResponse :=
  fun _ => Except.ok
    { task_id := some ("361720188367060"), id := none, raw := ("\x7b\x7d") }

/-- Status provider used in the C9 scenario: immediate success resolving
to a fixed CDN URL. -/
def bugBehavior : Nat → QueryOutcome :=
  fun _ => successOutcome ("361721749176519") ("https://cdn.example.com/v.mp4")

/-- Payload server used in the C9 scenario. -/
def bugNet : String → Except String (List Nat) :=
  fun _ => Except.ok [7, 7, 7]

/-- C9: evaluation of the full generate-then-download workflow at a
successful run.  Because line 260 passes `videoUrl` where `downloadVideo`
expects the `taskId`, the saved path is derived from the URL and the
current time: it does not contain the literal task id `361720188367060`
anywhere (third conjunct shows the path that the `taskId`-based derivation
of `downloadVideo` itself would have produced does contain it). -/
theorem workflow_filename_uses_url_not_taskid :
    (generateAndDownloadVideo ("Explain gravity") 5 bugProvider bugBehavior
        bugNet emptyFs ("./videos") 1730000000000).1
      = Except.ok (("https://cdn.example.com/v.mp4"),
          pathJoin ("./videos")
            (videoFilename ("https://cdn.example.com/v.mp4") 1730000000000))
    ∧ strContains
        (pathJoin ("./videos")
          (videoFilename ("https://cdn.example.com/v.mp4") 1730000000000))
        ("361720188367060") = false
    ∧ strContains
        (pathJoin ("./videos")
          (videoFilename ("361720188367060") 1730000000000))
        ("361720188367060") = true :=
  ⟨rfl, by decide, by decide⟩

end MinimaxVideo
